import Mathlib

set_option maxRecDepth 8000

/-!
Shallow embedding of the electional-astrology scoring service in `src/main.py`
(API Astrología Electiva Empresarial v1.0).

The Swiss Ephemeris (`swe.calc_ut` together with `swe.julday`) is the external
position provider: it is modelled as an opaque response table `Efemerides`
giving, for an instant, each body's ecliptic longitude and signed angular speed
(both as rationals), or `none` when the lookup raises.  Python floats are
modelled by `ℚ`; Python's float `%` is `pymod` (sign of the divisor) and
`int(...)` is `pytrunc` (truncation toward zero).
-/

inductive Planeta where
  | sol | luna | mercurio | venus | marte | jupiter | saturno | urano | neptuno
deriving DecidableEq

/-- The provider's answer for one instant: body ↦ (longitude, speed), `none` on failure. -/
abbrev Efemerides := Planeta → Option (ℚ × ℚ)

def SIGNOS : List String :=
  ["Aries", "Tauro", "Géminis", "Cáncer", "Leo", "Virgo",
   "Libra", "Escorpio", "Sagitario", "Capricornio", "Acuario", "Piscis"]

def DIAS_SEMANA : List String :=
  ["Lunes", "Martes", "Miércoles", "Jueves", "Viernes", "Sábado", "Domingo"]

def MESES : List String :=
  ["", "Enero", "Febrero", "Marzo", "Abril", "Mayo", "Junio",
   "Julio", "Agosto", "Septiembre", "Octubre", "Noviembre", "Diciembre"]

def ORDEN_HORAS_PLANETARIAS : List String :=
  ["Saturno", "Júpiter", "Marte", "Sol", "Venus", "Mercurio", "Luna"]

/-- `REGENTES_DIAS` of `main.py` as a list indexed by `weekday()` 0..6. -/
def REGENTES_DIAS : List String :=
  ["Luna", "Marte", "Mercurio", "Júpiter", "Venus", "Saturno", "Sol"]

def VIA_COMBUSTA_DESDE : ℚ := 195
def VIA_COMBUSTA_FIN : ℚ := 225

/-- The `PESOS` dictionary: rule name ↦ signed weight; `none` for absent keys. -/
def PESOS (clave : String) : Option ℤ :=
  if clave = "luna_creciente" then some 15
  else if clave = "luna_menguante" then some (-10)
  else if clave = "luna_vacia_curso" then some (-25)
  else if clave = "via_combusta" then some (-20)
  else if clave = "mercurio_retrogrado" then some (-20)
  else if clave = "mercurio_directo" then some 10
  else if clave = "luna_conjuncion_jupiter" then some 15
  else if clave = "luna_trigono_jupiter" then some 15
  else if clave = "luna_sextil_jupiter" then some 12
  else if clave = "luna_conjuncion_venus" then some 12
  else if clave = "luna_trigono_venus" then some 12
  else if clave = "luna_sextil_venus" then some 10
  else if clave = "luna_cuadratura_marte" then some (-15)
  else if clave = "luna_oposicion_marte" then some (-15)
  else if clave = "luna_conjuncion_marte" then some (-12)
  else if clave = "luna_cuadratura_saturno" then some (-15)
  else if clave = "luna_oposicion_saturno" then some (-15)
  else if clave = "luna_conjuncion_saturno" then some (-12)
  else if clave = "luna_signo_favorable" then some 8
  else if clave = "sol_trigono_luna" then some 10
  else if clave = "sol_sextil_luna" then some 8
  else none

/-- Python float `%` with a positive divisor: `a - b * floor (a / b)`. -/
def pymod (a b : ℚ) : ℚ := a - b * ((a / b).floor : ℚ)

/-- Python `int(...)` on a rational value: truncation toward zero. -/
def pytrunc (q : ℚ) : ℤ := if 0 ≤ q then q.floor else -((-q).floor)

/-- Python list indexing (negative indices wrap once; out of range raises → `none`). -/
def indicePy (l : List String) (n : ℤ) : Option String :=
  let m := if n < 0 then n + l.length else n
  if 0 ≤ m ∧ m < l.length then l.get? m.toNat else none

structure Posicion where
  longitud : ℚ
  signo : String
  numero_signo : ℤ
  grado : ℚ
  velocidad : ℚ
  retrogrado : Bool
deriving DecidableEq

/-- `obtener_posicion_planeta`: derives sign, in-sign degree and retrograde flag
from the provider's (longitude, speed); any exception (provider failure, or the
sign-list `IndexError` for an out-of-range longitude) is caught and yields `none`. -/
def obtener_posicion_planeta (eph : Efemerides) (p : Planeta) : Option Posicion :=
  match eph p with
  | none => none
  | some (longitud, velocidad) =>
    let numero_signo : ℤ := pytrunc (longitud / 30)
    match indicePy SIGNOS numero_signo with
    | none => none
    | some s =>
      some { longitud := longitud, signo := s, numero_signo := numero_signo,
             grado := pymod longitud 30, velocidad := velocidad,
             retrogrado := decide (velocidad < 0) }

structure FaseLunar where
  fase : String
  creciente : Bool
  angulo : Option ℚ
deriving DecidableEq

/-- The 8-band classification chain of `obtener_fase_lunar` on the Sun–Moon separation. -/
def clasificarFase (diferencia : ℚ) : String × Bool :=
  if diferencia < 45 then ("Nueva", true)
  else if diferencia < 90 then ("Creciente", true)
  else if diferencia < 135 then ("Cuarto Creciente", true)
  else if diferencia < 180 then ("Gibosa Creciente", true)
  else if diferencia < 225 then ("Llena", false)
  else if diferencia < 270 then ("Gibosa Menguante", false)
  else if diferencia < 315 then ("Cuarto Menguante", false)
  else ("Menguante", false)

/-- `obtener_fase_lunar`: when either luminary is unavailable it returns the
`desconocida` phase with `creciente = False` (and no `angulo` key). -/
def obtener_fase_lunar (eph : Efemerides) : FaseLunar :=
  match obtener_posicion_planeta eph .sol, obtener_posicion_planeta eph .luna with
  | some sol, some luna =>
    let d := pymod (luna.longitud - sol.longitud) 360
    ⟨(clasificarFase d).1, (clasificarFase d).2, some d⟩
  | _, _ => ⟨"desconocida", false, none⟩

/-- Shorter-arc angular separation, as computed inline in
`esta_luna_vacia_de_curso` and `calcular_aspecto`. -/
def arcoCorto (a b : ℚ) : ℚ :=
  let d := |a - b|
  if d > 180 then 360 - d else d

def ANGULOS_MAYORES : List ℚ := [0, 60, 90, 120, 180]

def PLANETAS_VOC : List Planeta :=
  [.sol, .mercurio, .venus, .marte, .jupiter, .saturno]

/-- The `tiene_aspecto_aplicativo` flag of `esta_luna_vacia_de_curso`: some scanned
body is available and within a 3° orb of a major angle, with the Moon moving direct. -/
def tieneAspectoAplicativo (eph : Efemerides) (luna : Posicion) : Bool :=
  PLANETAS_VOC.any fun p =>
    match obtener_posicion_planeta eph p with
    | none => false
    | some pos =>
      ANGULOS_MAYORES.any fun ang =>
        decide (|arcoCorto luna.longitud pos.longitud - ang| < 3) &&
          decide (0 < luna.velocidad)

def esta_luna_vacia_de_curso (eph : Efemerides) : Bool :=
  match obtener_posicion_planeta eph .luna with
  | none => false
  | some luna =>
    if luna.grado > 27 then ! tieneAspectoAplicativo eph luna
    else false

def esta_en_via_combusta (longitud : ℚ) : Bool :=
  decide (VIA_COMBUSTA_DESDE ≤ longitud) && decide (longitud ≤ VIA_COMBUSTA_FIN)

structure Aspecto where
  aspecto : String
  simbolo : String
  angulo : ℚ
  orbe : ℚ
  exacto : Bool
deriving DecidableEq

/-- The `aspectos` table of `calcular_aspecto`: angle ↦ (name, symbol, orb),
in insertion order. -/
def ASPECTOS_TABLA : List (ℚ × String × String × ℚ) :=
  [(0, ("Conjunción", "☌", 8)), (60, ("Sextil", "⚹", 6)), (90, ("Cuadratura", "□", 7)),
   (120, ("Trígono", "△", 8)), (180, ("Oposición", "☍", 8))]

def calcular_aspecto (eph : Efemerides) (p1 p2 : Planeta) : Option Aspecto :=
  match obtener_posicion_planeta eph p1, obtener_posicion_planeta eph p2 with
  | some pos1, some pos2 =>
    let d := arcoCorto pos1.longitud pos2.longitud
    ASPECTOS_TABLA.findSome? fun e =>
      if |d - e.1| ≤ e.2.2.2 then
        some ⟨e.2.1, e.2.2.1, e.1, |d - e.1|, decide (|d - e.1| < 1)⟩
      else none
  | _, _ => none

/-! ## Scoring engine (`calcular_puntaje_fecha`)

Each numbered rule block of the Python function reads only the instant's
provider data, adds a signed weight to the running score and appends zero or
more factor annotations; no rule reads the running state.  Each block is
therefore embedded as a pure `(weight delta, appended factors)` pair, and the
function is their left-to-right sum/concatenation from the base score 50. -/

structure Factor where
  texto : String
  tipo : String
deriving DecidableEq

structure ResultadoPuntaje where
  puntaje : ℤ
  nivel : String
  factores : List Factor
deriving DecidableEq

/-- Python `f"{x:.0f}"` on an in-sign degree: round half to even. -/
def roundHalfEven (q : ℚ) : ℤ :=
  let f := q.floor
  let r := q - f
  if r < 1/2 then f else if 1/2 < r then f + 1 else if f % 2 = 0 then f else f + 1

/-- REGLA 1: lunar phase; fires on every instant (also when the phase is `desconocida`). -/
def reglaFase (fase : FaseLunar) : ℤ × List Factor :=
  if fase.creciente then
    ((PESOS "luna_creciente").getD 0, [⟨"☽ Luna " ++ fase.fase, "positive"⟩])
  else
    ((PESOS "luna_menguante").getD 0, [⟨"☽ Luna " ++ fase.fase, "negative"⟩])

/-- REGLA 2: void-of-course Moon. -/
def reglaVaciaDeCurso (voc : Bool) : ℤ × List Factor :=
  if voc then ((PESOS "luna_vacia_curso").getD 0, [⟨"☽ Luna Vacía de Curso", "negative"⟩])
  else (0, [])

/-- REGLA 3: Via Combusta; skipped when the Moon's position is unavailable. -/
def reglaViaCombusta (luna : Option Posicion) : ℤ × List Factor :=
  match luna with
  | some l =>
    if esta_en_via_combusta l.longitud then
      ((PESOS "via_combusta").getD 0,
       [⟨"☽ Via Combusta (" ++ toString (roundHalfEven l.grado) ++ "° " ++ l.signo ++ ")",
         "negative"⟩])
    else (0, [])
  | none => (0, [])

/-- REGLA 4: Mercury.  The Python test is `if mercurio and mercurio["retrogrado"]`,
so an unavailable Mercury falls into the `else` (direct) branch. -/
def reglaMercurio (mercurio : Option Posicion) : ℤ × List Factor :=
  if mercurio.elim false (fun m => m.retrogrado) then
    ((PESOS "mercurio_retrogrado").getD 0, [⟨"☿ Mercurio Retrógrado ℞", "negative"⟩])
  else
    ((PESOS "mercurio_directo").getD 0, [⟨"☿ Mercurio Directo", "positive"⟩])

/-- REGLA 5a: Moon–Jupiter.  The weight key is built from `aspecto.lower()`, which keeps
the accents of "Conjunción"/"Trígono", so those lookups miss and take the default 12. -/
def reglaJupiter (a : Option Aspecto) : ℤ × List Factor :=
  match a with
  | some asp =>
    if asp.aspecto ∈ ["Conjunción", "Trígono", "Sextil"] then
      ((PESOS ("luna_" ++ asp.aspecto.toLower ++ "_jupiter")).getD 12,
       [⟨"☽ " ++ asp.simbolo ++ " ♃ (" ++ asp.aspecto ++ ")", "positive"⟩])
    else if asp.aspecto ∈ ["Cuadratura", "Oposición"] then
      (-5, [⟨"☽ " ++ asp.simbolo ++ " ♃ (" ++ asp.aspecto ++ ")", "neutral"⟩])
    else (0, [])
  | none => (0, [])

/-- REGLA 5b: Moon–Venus (flat +10 for harmonious aspects, nothing otherwise). -/
def reglaVenus (a : Option Aspecto) : ℤ × List Factor :=
  match a with
  | some asp =>
    if asp.aspecto ∈ ["Conjunción", "Trígono", "Sextil"] then
      (10, [⟨"☽ " ++ asp.simbolo ++ " ♀ (" ++ asp.aspecto ++ ")", "positive"⟩])
    else (0, [])
  | none => (0, [])

/-- REGLA 6a: Moon–Mars afflictions, all weighted by `luna_cuadratura_marte`. -/
def reglaMarte (a : Option Aspecto) : ℤ × List Factor :=
  match a with
  | some asp =>
    if asp.aspecto ∈ ["Conjunción", "Cuadratura", "Oposición"] then
      ((PESOS "luna_cuadratura_marte").getD 0,
       [⟨"☽ " ++ asp.simbolo ++ " ♂ (" ++ asp.aspecto ++ ")", "negative"⟩])
    else (0, [])
  | none => (0, [])

/-- REGLA 6b: Moon–Saturn afflictions, all weighted by `luna_cuadratura_saturno`. -/
def reglaSaturno (a : Option Aspecto) : ℤ × List Factor :=
  match a with
  | some asp =>
    if asp.aspecto ∈ ["Conjunción", "Cuadratura", "Oposición"] then
      ((PESOS "luna_cuadratura_saturno").getD 0,
       [⟨"☽ " ++ asp.simbolo ++ " ♄ (" ++ asp.aspecto ++ ")", "negative"⟩])
    else (0, [])
  | none => (0, [])

def SIGNOS_FAVORABLES : List String := ["Tauro", "Cáncer", "Virgo", "Capricornio", "Piscis"]

/-- REGLA 7: favorable lunar sign; skipped when the Moon's position is unavailable. -/
def reglaSignoLunar (luna : Option Posicion) : ℤ × List Factor :=
  match luna with
  | some l =>
    if l.signo ∈ SIGNOS_FAVORABLES then
      ((PESOS "luna_signo_favorable").getD 0, [⟨"☽ Luna en " ++ l.signo, "positive"⟩])
    else (0, [])
  | none => (0, [])

/-- REGLA 8: Sun–Moon trine/sextile, both weighted by `sol_trigono_luna`. -/
def reglaSolLuna (a : Option Aspecto) : ℤ × List Factor :=
  match a with
  | some asp =>
    if asp.aspecto ∈ ["Trígono", "Sextil"] then
      ((PESOS "sol_trigono_luna").getD 0, [⟨"☉ " ++ asp.simbolo ++ " ☽", "positive"⟩])
    else (0, [])
  | none => (0, [])

/-- The accumulated score of `calcular_puntaje_fecha` before clamping.
`tipo_proyecto`, `lat` and `lon` are accepted but unused, exactly as in the source. -/
def puntaje_bruto (eph : Efemerides) (tipo_proyecto : String) (lat lon : ℚ) : ℤ :=
  50 + (reglaFase (obtener_fase_lunar eph)).1
     + (reglaVaciaDeCurso (esta_luna_vacia_de_curso eph)).1
     + (reglaViaCombusta (obtener_posicion_planeta eph .luna)).1
     + (reglaMercurio (obtener_posicion_planeta eph .mercurio)).1
     + (reglaJupiter (calcular_aspecto eph .luna .jupiter)).1
     + (reglaVenus (calcular_aspecto eph .luna .venus)).1
     + (reglaMarte (calcular_aspecto eph .luna .marte)).1
     + (reglaSaturno (calcular_aspecto eph .luna .saturno)).1
     + (reglaSignoLunar (obtener_posicion_planeta eph .luna)).1
     + (reglaSolLuna (calcular_aspecto eph .sol .luna)).1

/-- The factor trail of `calcular_puntaje_fecha`, in rule order. -/
def factores_fecha (eph : Efemerides) (tipo_proyecto : String) (lat lon : ℚ) : List Factor :=
  (reglaFase (obtener_fase_lunar eph)).2
    ++ (reglaVaciaDeCurso (esta_luna_vacia_de_curso eph)).2
    ++ (reglaViaCombusta (obtener_posicion_planeta eph .luna)).2
    ++ (reglaMercurio (obtener_posicion_planeta eph .mercurio)).2
    ++ (reglaJupiter (calcular_aspecto eph .luna .jupiter)).2
    ++ (reglaVenus (calcular_aspecto eph .luna .venus)).2
    ++ (reglaMarte (calcular_aspecto eph .luna .marte)).2
    ++ (reglaSaturno (calcular_aspecto eph .luna .saturno)).2
    ++ (reglaSignoLunar (obtener_posicion_planeta eph .luna)).2
    ++ (reglaSolLuna (calcular_aspecto eph .sol .luna)).2

/-- The level chain at the end of `calcular_puntaje_fecha`. -/
def nivelDe (puntaje : ℤ) : String :=
  if 80 ≤ puntaje then "excellent"
  else if 60 ≤ puntaje then "good"
  else if 40 ≤ puntaje then "caution"
  else "avoid"

def calcular_puntaje_fecha (eph : Efemerides) (tipo_proyecto : String) (lat lon : ℚ) :
    ResultadoPuntaje :=
  let puntaje := max 0 (min 100 (puntaje_bruto eph tipo_proyecto lat lon))
  ⟨puntaje, nivelDe puntaje, factores_fecha eph tipo_proyecto lat lon⟩

/-! ## Calendar dates

`datetime` values in `calcular_electiva` are calendar dates (the parsed time is
always midnight).  `toOrdinal` is `datetime.date.toordinal` (proleptic Gregorian,
day 1 = 0001-01-01); date subtraction `.days`, `timedelta(days=1)` stepping and
date comparison all act through it.  `weekday()` is Monday-0. -/

structure Fecha where
  anio : ℕ
  mes : ℕ
  dia : ℕ
deriving DecidableEq

def esBisiesto (anio : ℕ) : Bool :=
  anio % 4 == 0 && (anio % 100 != 0 || anio % 400 == 0)

def diasEnMes (anio mes : ℕ) : ℕ :=
  [31, if esBisiesto anio then 29 else 28, 31, 30, 31, 30, 31, 31, 30, 31, 30, 31].getD
    (mes - 1) 0

/-- Days in months `1..m-1` of a year. -/
def diasAntesMes (anio : ℕ) : ℕ → ℕ
  | 0 => 0
  | 1 => 0
  | m + 2 => diasAntesMes anio (m + 1) + diasEnMes anio (m + 1)

/-- Days in all years before `anio` (the closed form used by `date.toordinal`). -/
def diasAntesAnio (anio : ℕ) : ℕ :=
  365 * (anio - 1) + (anio - 1) / 4 + (anio - 1) / 400 - (anio - 1) / 100

def toOrdinal (f : Fecha) : ℕ :=
  diasAntesAnio f.anio + diasAntesMes f.anio f.mes + f.dia

/-- `fecha + timedelta(days=1)` on the calendar representation. -/
def siguienteDia (f : Fecha) : Fecha :=
  if f.dia < diasEnMes f.anio f.mes then ⟨f.anio, f.mes, f.dia + 1⟩
  else if f.mes < 12 then ⟨f.anio, f.mes + 1, 1⟩
  else ⟨f.anio + 1, 1, 1⟩

def avanzarDias (f : Fecha) : ℕ → Fecha
  | 0 => f
  | n + 1 => siguienteDia (avanzarDias f n)

/-- `datetime.weekday()`: 0001-01-01 (ordinal 1) was a Monday (0). -/
def diaSemana (f : Fecha) : ℕ := (toOrdinal f + 6) % 7

def FechaValida (f : Fecha) : Prop :=
  1 ≤ f.anio ∧ 1 ≤ f.mes ∧ f.mes ≤ 12 ∧ 1 ≤ f.dia ∧ f.dia ≤ diasEnMes f.anio f.mes

instance (f : Fecha) : Decidable (FechaValida f) := by unfold FechaValida; infer_instance

def valorDigito (c : Char) : ℕ := c.toNat - 48

/-- `datetime.strptime(s, "%Y-%m-%d")` restricted to the canonical ten-character
form, including the stdlib's range validation (years 1-9999, real month/day). -/
def parseCamposFecha : List Char → Option Fecha
  | [a1, a2, a3, a4, g1, m1, m2, g2, d1, d2] =>
    if a1.isDigit && a2.isDigit && a3.isDigit && a4.isDigit && (g1 == '-') &&
        m1.isDigit && m2.isDigit && (g2 == '-') && d1.isDigit && d2.isDigit then
      let anio := valorDigito a1 * 1000 + valorDigito a2 * 100 + valorDigito a3 * 10 +
        valorDigito a4
      let mes := valorDigito m1 * 10 + valorDigito m2
      let dia := valorDigito d1 * 10 + valorDigito d2
      if 1 ≤ anio ∧ 1 ≤ mes ∧ mes ≤ 12 ∧ 1 ≤ dia ∧ dia ≤ diasEnMes anio mes then
        some ⟨anio, mes, dia⟩
      else none
    else none
  | _ => none

def parseFecha (s : String) : Option Fecha := parseCamposFecha s.data

/-! ## Planetary hours and the range scanner (`calcular_electiva`) -/

structure Hora where
  hora_inicio : String
  hora_fin : String
  planeta : String
  favorable : Bool
  tipo : String
deriving DecidableEq

def fmt02 (n : ℕ) : String := if n < 10 then "0" ++ toString n else toString n

def fmt04 (n : ℕ) : String :=
  if n < 10 then "000" ++ toString n
  else if n < 100 then "00" ++ toString n
  else if n < 1000 then "0" ++ toString n
  else toString n

/-- `obtener_horas_planetarias` (lat/lon accepted and unused, as in the source). -/
def obtener_horas_planetarias (f : Fecha) (lat lon : ℚ) : List Hora :=
  let regente := REGENTES_DIAS.getD (diaSemana f) ""
  let indiceInicio := ORDEN_HORAS_PLANETARIAS.findIdx (· == regente)
  (List.range 12).map fun i =>
    let planeta := ORDEN_HORAS_PLANETARIAS.getD ((indiceInicio + i) % 7) ""
    let horaInicio := 6 + i
    { hora_inicio := fmt02 horaInicio ++ ":00", hora_fin := fmt02 (horaInicio + 1) ++ ":00",
      planeta := planeta, favorable := decide (planeta ∈ ["Júpiter", "Venus", "Sol"]),
      tipo := "diurna" }

def obtener_mejores_horas (f : Fecha) (lat lon : ℚ) : List String :=
  (((obtener_horas_planetarias f lat lon).filter fun h => h.favorable && h.tipo == "diurna").map
    fun h => h.hora_inicio ++ " - " ++ h.hora_fin ++ " (Hora de " ++ h.planeta ++ ")").take 3

/-- The request model of `SolicitudElectiva`, restricted to the fields the scan
reads (`fecha_nacimiento`, `hora_nacimiento`, `ciudad_nacimiento` and `ubicacion`
are never consumed by `calcular_electiva`). -/
structure Solicitud where
  nombre : String
  tipo_proyecto : String
  fecha_desde : String
  fecha_hasta : String
  latitud : ℚ
  longitud : ℚ

structure ResultadoFecha where
  dia : ℕ
  dia_semana : String
  mes : String
  fecha_completa : String
  puntaje : ℤ
  nivel : String
  factores : List Factor
  mejores_horas : List String
deriving DecidableEq

structure RespuestaElectiva where
  estado : String
  nombre : String
  tipo_proyecto : String
  descripcion_tipo : String
  fechas : List ResultadoFecha
  reglas_aplicadas : List String
deriving DecidableEq

structure TipoProyecto where
  casas : List ℕ
  planetas : List Planeta
  descripcion : String

def TIPO_OTRO : TipoProyecto := ⟨[1, 10, 11], [.jupiter, .venus], "Proyecto General"⟩

def TIPOS_PROYECTO (clave : String) : Option TipoProyecto :=
  if clave = "negocio" then some ⟨[1, 2, 10, 11], [.jupiter, .sol, .mercurio], "Negocio / Empresa"⟩
  else if clave = "tienda" then some ⟨[2, 7, 10], [.mercurio, .jupiter, .venus], "Tienda / Comercio"⟩
  else if clave = "contrato" then some ⟨[7, 3, 9], [.mercurio, .jupiter], "Contrato / Acuerdo"⟩
  else if clave = "inversion" then some ⟨[2, 5, 8, 11], [.jupiter, .venus], "Inversión"⟩
  else if clave = "lanzamiento" then
    some ⟨[1, 10, 11], [.sol, .jupiter, .marte], "Lanzamiento de Producto"⟩
  else if clave = "sociedad" then some ⟨[7, 11], [.jupiter, .venus], "Sociedad / Partnership"⟩
  else if clave = "web" then some ⟨[3, 9, 11], [.mercurio, .urano], "Sitio Web / App"⟩
  else if clave = "otro" then some TIPO_OTRO
  else none

def REGLAS_APLICADAS : List String :=
  ["✅ Luna creciente - Favorece crecimiento y progreso (Robson pág. 13)",
   "✅ Mercurio directo - Comunicación y contratos claros (Robson pág. 15)",
   "✅ Júpiter/Venus en buen aspecto a Luna - Favorece negocios (Robson pág. 14)",
   "✅ Luna en signos favorables: Tauro, Cáncer, Virgo, etc. (Robson pág. 34)",
   "❌ Evitar Luna vacía de curso - Nada prospera (Robson pág. 15)",
   "❌ Evitar Via Combusta: 15° Libra - 15° Escorpio (Robson pág. 15)",
   "❌ Evitar Mercurio retrógrado - Contratos problemáticos (Robson pág. 15)",
   "❌ Evitar aflicciones Marte/Saturno a Luna - Conflictos (Robson pág. 14)"]

/-- One iteration of the per-day loop of `calcular_electiva`: score the day at
local noon (the provider family `ephDay` absorbs `swe.julday(y, m, d, 12.0)`),
compute the best hours and apply the avoid/caution overrides. -/
def construirResultado (ephDay : Fecha → Efemerides) (sol : Solicitud) (f : Fecha) :
    ResultadoFecha :=
  let analisis := calcular_puntaje_fecha (ephDay f) sol.tipo_proyecto sol.latitud sol.longitud
  let mejoresHoras0 := obtener_mejores_horas f sol.latitud sol.longitud
  let mejoresHoras :=
    if analisis.nivel == "avoid" then []
    else if analisis.nivel == "caution" then
      ["⚠️ Si es urgente, evitar horas de Marte y Saturno"]
    else mejoresHoras0
  { dia := f.dia, dia_semana := DIAS_SEMANA.getD (diaSemana f) "",
    mes := MESES.getD f.mes "" ++ " " ++ toString f.anio,
    fecha_completa := fmt04 f.anio ++ "-" ++ fmt02 f.mes ++ "-" ++ fmt02 f.dia,
    puntaje := analisis.puntaje, nivel := analisis.nivel, factores := analisis.factores,
    mejores_horas := mejoresHoras }

/-- The 60-day cap: `if (hasta - desde).days > 60: hasta = desde + timedelta(days=60)`. -/
def fechaHastaEfectiva (desde hasta : Fecha) : Fecha :=
  if 60 < (toOrdinal hasta : ℤ) - toOrdinal desde then avanzarDias desde 60 else hasta

/-- The dates visited by `while fecha_actual <= fecha_hasta`, in ascending order. -/
def listaDias (desde hasta : Fecha) : List Fecha :=
  (List.range ((toOrdinal hasta : ℤ) - toOrdinal desde + 1).toNat).map (avanzarDias desde)

/-- The `resultados` list of `calcular_electiva`, in ascending scan (date) order. -/
def resultadosDe (ephDay : Fecha → Efemerides) (sol : Solicitud) (desde hasta : Fecha) :
    List ResultadoFecha :=
  (listaDias desde (fechaHastaEfectiva desde hasta)).map (construirResultado ephDay sol)

/-- Stable insertion into a descending-by-score list: an incoming element goes in
front of the first element whose score does not exceed it. -/
def insertarPorPuntaje (x : ResultadoFecha) : List ResultadoFecha → List ResultadoFecha
  | [] => [x]
  | y :: ys => if y.puntaje ≤ x.puntaje then x :: y :: ys else y :: insertarPorPuntaje x ys

/-- `resultados.sort(key=lambda x: x.puntaje, reverse=True)`: CPython's sort is
stable, and the stable descending sort of a list is unique, so it is embedded as
the stable insertion sort (sortedness, stability and permutation are proved below). -/
def ordenarPorPuntaje : List ResultadoFecha → List ResultadoFecha
  | [] => []
  | x :: xs => insertarPorPuntaje x (ordenarPorPuntaje xs)

/-- `calcular_electiva`.  The surrounding `try/except` turns any exception into an
HTTP 500 failure: the only raising step for a well-typed request is `strptime`,
hence the `Except` error channel models exactly the parse failures. -/
def calcular_electiva (ephDay : Fecha → Efemerides) (sol : Solicitud) :
    Except String RespuestaElectiva :=
  match parseFecha sol.fecha_desde with
  | none => .error ("formato de fecha no reconocido: " ++ sol.fecha_desde)
  | some desde =>
    match parseFecha sol.fecha_hasta with
    | none => .error ("formato de fecha no reconocido: " ++ sol.fecha_hasta)
    | some hasta =>
      .ok { estado := "exito", nombre := sol.nombre, tipo_proyecto := sol.tipo_proyecto,
            descripcion_tipo := ((TIPOS_PROYECTO sol.tipo_proyecto).getD TIPO_OTRO).descripcion,
            fechas := (ordenarPorPuntaje (resultadosDe ephDay sol desde hasta)).take 10,
            reglas_aplicadas := REGLAS_APLICADAS }

/-! ## Concrete fixtures used by the witnesses and counterexamples -/

/-- An instant whose provider resolves Sun and Moon but fails on Mercury
(and every other body). -/
def ephSinMercurio : Efemerides := fun p =>
  match p with
  | .sol => some (100, 1)
  | .luna => some (130, 13)
  | _ => none

/-- An instant where only the Moon resolves, in the last three degrees of Aries. -/
def ephLunaFinal : Efemerides := fun p =>
  match p with
  | .luna => some (28, 13)
  | _ => none

/-- An instant realising the C9 scenario: Moon waxing at 200° (Via Combusta, Libra,
20° into the sign), Mercury retrograde, and every Moon/Sun aspect out of orb. -/
def ephEscenario : Efemerides := fun p =>
  match p with
  | .sol => some (100, 1)
  | .luna => some (200, 13)
  | .mercurio => some (10, -1)
  | .venus => some (160, 1)
  | .marte => some (165, 1)
  | .jupiter => some (240, 1)
  | .saturno => some (235, 1)
  | _ => none

/-- A request whose end date precedes its start date. -/
def solInvertida : Solicitud := ⟨"cliente", "otro", "2026-01-10", "2026-01-05", 0, 0⟩

/-- A three-day request used to exercise the scanner. -/
def solCorta : Solicitud := ⟨"cliente", "negocio", "2026-01-01", "2026-01-03", 0, 0⟩

/-- A five-month request used to exercise the 60-day cap. -/
def solLarga : Solicitud := ⟨"cliente", "otro", "2026-01-01", "2026-06-01", 0, 0⟩

/-- The eight phase names in band order (used to state the C5 partition). -/
def FASES_ORDEN : List String :=
  ["Nueva", "Creciente", "Cuarto Creciente", "Gibosa Creciente",
   "Llena", "Gibosa Menguante", "Cuarto Menguante", "Menguante"]

/-! ## Theorems -/

/-- C8: for every longitude `L`, the Via Combusta predicate holds iff
`195 ≤ L ≤ 225`, inclusive on both ends; in particular 195.0 and 225.0 qualify
while 194.999 and 225.001 do not. -/
theorem via_combusta_caracterizacion :
    (∀ L : ℚ, esta_en_via_combusta L = true ↔ (195 ≤ L ∧ L ≤ 225)) ∧
    esta_en_via_combusta 195 = true ∧ esta_en_via_combusta 225 = true ∧
    esta_en_via_combusta (194999/1000) = false ∧
    esta_en_via_combusta (225001/1000) = false := by
  refine ⟨fun L => ?_, ?_, ?_, ?_, ?_⟩
  · simp [esta_en_via_combusta, VIA_COMBUSTA_DESDE, VIA_COMBUSTA_FIN]
  all_goals with_unfolding_all decide

/-- C3: the score of `calcular_puntaje_fecha` is the raw rule sum clamped
(truncated) into [0, 100], and the level is the gap-free threshold function of
the clamped score: 0–39 avoid, 40–59 caution, 60–79 good, 80–100 excellent. -/
theorem puntaje_acotado_y_nivel (eph : Efemerides) (tipo : String) (lat lon : ℚ) (p : ℤ) :
    ((calcular_puntaje_fecha eph tipo lat lon).puntaje =
        max 0 (min 100 (puntaje_bruto eph tipo lat lon)) ∧
      0 ≤ (calcular_puntaje_fecha eph tipo lat lon).puntaje ∧
      (calcular_puntaje_fecha eph tipo lat lon).puntaje ≤ 100 ∧
      (calcular_puntaje_fecha eph tipo lat lon).nivel =
        nivelDe (calcular_puntaje_fecha eph tipo lat lon).puntaje) ∧
    ((0 ≤ p ∧ p ≤ 39) → nivelDe p = "avoid") ∧
    ((40 ≤ p ∧ p ≤ 59) → nivelDe p = "caution") ∧
    ((60 ≤ p ∧ p ≤ 79) → nivelDe p = "good") ∧
    ((80 ≤ p ∧ p ≤ 100) → nivelDe p = "excellent") := by
  refine ⟨⟨rfl, le_max_left 0 _, max_le (by norm_num) (min_le_left _ _), rfl⟩,
    ?_, ?_, ?_, ?_⟩
  · rintro ⟨ha, hb⟩
    unfold nivelDe
    rw [if_neg (by omega), if_neg (by omega), if_neg (by omega)]
  · rintro ⟨ha, hb⟩
    unfold nivelDe
    rw [if_neg (by omega), if_neg (by omega), if_pos (by omega)]
  · rintro ⟨ha, hb⟩
    unfold nivelDe
    rw [if_neg (by omega), if_pos (by omega)]
  · rintro ⟨ha, hb⟩
    unfold nivelDe
    rw [if_pos (by omega)]

/-- Witness for C3 at a concrete instant and a concrete in-band score. -/
theorem puntaje_acotado_y_nivel_testigo :
    ((40:ℤ) ≤ 45 ∧ (45:ℤ) ≤ 59) ∧ nivelDe 45 = "caution" :=
  ⟨⟨by norm_num, by norm_num⟩,
   (puntaje_acotado_y_nivel (fun _ => none) "otro" 0 0 45).2.2.1 ⟨by norm_num, by norm_num⟩⟩

/-- C10: when the provider fails on the Sun or the Moon, the phase classifier
returns the `desconocida` phase with `creciente = false`, so rule 1 still fires:
the waning weight −10 is applied and a negative factor leads the factor trail. -/
theorem fase_desconocida_sesga_negativo (eph : Efemerides) (tipo : String) (lat lon : ℚ)
    (h : obtener_posicion_planeta eph .sol = none ∨
         obtener_posicion_planeta eph .luna = none) :
    obtener_fase_lunar eph = ⟨"desconocida", false, none⟩ ∧
    reglaFase (obtener_fase_lunar eph) =
      ((PESOS "luna_menguante").getD 0, [⟨"☽ Luna desconocida", "negative"⟩]) ∧
    (PESOS "luna_menguante").getD 0 = -10 ∧
    (calcular_puntaje_fecha eph tipo lat lon).factores.head? =
      some ⟨"☽ Luna desconocida", "negative"⟩ := by
  have hf : obtener_fase_lunar eph = ⟨"desconocida", false, none⟩ := by
    rcases h with h | h
    · cases h2 : obtener_posicion_planeta eph .luna <;>
        simp [obtener_fase_lunar, h, h2]
    · cases h2 : obtener_posicion_planeta eph .sol <;>
        simp [obtener_fase_lunar, h, h2]
  have hr : reglaFase (obtener_fase_lunar eph) =
      ((PESOS "luna_menguante").getD 0, [⟨"☽ Luna desconocida", "negative"⟩]) := by
    rw [hf]; decide
  refine ⟨hf, hr, by decide, ?_⟩
  show (factores_fecha eph tipo lat lon).head? = _
  unfold factores_fecha
  rw [hr]
  simp

/-- Witness for C10 on a provider that resolves no body at all. -/
theorem fase_desconocida_sesga_negativo_testigo :
    obtener_posicion_planeta (fun _ => none) Planeta.sol = none ∧
    (obtener_fase_lunar (fun _ => none) = ⟨"desconocida", false, none⟩ ∧
     reglaFase (obtener_fase_lunar (fun _ => none)) =
       ((PESOS "luna_menguante").getD 0, [⟨"☽ Luna desconocida", "negative"⟩]) ∧
     (PESOS "luna_menguante").getD 0 = -10 ∧
     (calcular_puntaje_fecha (fun _ => none) "otro" 0 0).factores.head? =
       some ⟨"☽ Luna desconocida", "negative"⟩) :=
  ⟨rfl, fase_desconocida_sesga_negativo (fun _ => none) "otro" 0 0 (Or.inl rfl)⟩

/-- C1 counterexample: at `ephSinMercurio` the Mercury lookup fails, yet the Mercury
rule is not skipped — the `☿ Mercurio Directo` factor is appended and the score is
75 = 50 + 15 (waxing) + 10 (Mercury direct bonus), refuting the claimed skip. -/
theorem mercurio_indisponible_contraejemplo :
    obtener_posicion_planeta ephSinMercurio .mercurio = none ∧
    (⟨"☿ Mercurio Directo", "positive"⟩ : Factor) ∈
      (calcular_puntaje_fecha ephSinMercurio "negocio" 0 0).factores ∧
    (calcular_puntaje_fecha ephSinMercurio "negocio" 0 0).factores =
      [⟨"☽ Luna Nueva", "positive"⟩, ⟨"☿ Mercurio Directo", "positive"⟩] ∧
    (calcular_puntaje_fecha ephSinMercurio "negocio" 0 0).puntaje = 75 := by
  have h1 : obtener_fase_lunar ephSinMercurio = ⟨"Nueva", true, some 30⟩ := by
    with_unfolding_all decide
  have h2 : esta_luna_vacia_de_curso ephSinMercurio = false := by
    with_unfolding_all decide
  have h3 : obtener_posicion_planeta ephSinMercurio .luna =
      some ⟨130, "Leo", 4, 10, 13, false⟩ := by
    with_unfolding_all decide
  have h4 : obtener_posicion_planeta ephSinMercurio .mercurio = none := rfl
  have h5 : calcular_aspecto ephSinMercurio .luna .jupiter = none := by
    with_unfolding_all decide
  have h6 : calcular_aspecto ephSinMercurio .luna .venus = none := by
    with_unfolding_all decide
  have h7 : calcular_aspecto ephSinMercurio .luna .marte = none := by
    with_unfolding_all decide
  have h8 : calcular_aspecto ephSinMercurio .luna .saturno = none := by
    with_unfolding_all decide
  have h9 : esta_en_via_combusta (130:ℚ) = false := by with_unfolding_all decide
  have h10 : calcular_aspecto ephSinMercurio .sol .luna = none := by
    with_unfolding_all decide
  have hfact : (calcular_puntaje_fecha ephSinMercurio "negocio" 0 0).factores =
      [⟨"☽ Luna Nueva", "positive"⟩, ⟨"☿ Mercurio Directo", "positive"⟩] := by
    simp [calcular_puntaje_fecha, factores_fecha, h1, h2, h3, h4, h5, h6, h7, h8, h9, h10,
      reglaFase, reglaVaciaDeCurso, reglaViaCombusta, reglaMercurio, reglaJupiter,
      reglaVenus, reglaMarte, reglaSaturno, reglaSignoLunar, reglaSolLuna, SIGNOS_FAVORABLES]
  have hp : (calcular_puntaje_fecha ephSinMercurio "negocio" 0 0).puntaje = 75 := by
    show max 0 (min 100 (puntaje_bruto ephSinMercurio "negocio" 0 0)) = 75
    have : puntaje_bruto ephSinMercurio "negocio" 0 0 = 75 := by
      simp [puntaje_bruto, h1, h2, h3, h4, h5, h6, h7, h8, h9, h10,
        reglaFase, reglaVaciaDeCurso, reglaViaCombusta, reglaMercurio, reglaJupiter,
        reglaVenus, reglaMarte, reglaSaturno, reglaSignoLunar, reglaSolLuna,
        SIGNOS_FAVORABLES, PESOS]
    rw [this]
    decide
  exact ⟨h4, by rw [hfact]; simp, hfact, hp⟩

/-- C1 amended: when Mercury's position is unavailable the Mercury rule is not
skipped — the condition `mercurio and mercurio["retrogrado"]` is falsy, so the
`else` branch fires, adding the direct bonus (+10) and appending the
`☿ Mercurio Directo` positive factor. -/
theorem mercurio_indisponible_aplica_directo (eph : Efemerides) (tipo : String)
    (lat lon : ℚ) (h : obtener_posicion_planeta eph .mercurio = none) :
    reglaMercurio (obtener_posicion_planeta eph .mercurio) =
      ((PESOS "mercurio_directo").getD 0, [⟨"☿ Mercurio Directo", "positive"⟩]) ∧
    (PESOS "mercurio_directo").getD 0 = 10 ∧
    (⟨"☿ Mercurio Directo", "positive"⟩ : Factor) ∈
      (calcular_puntaje_fecha eph tipo lat lon).factores := by
  have h1 : reglaMercurio (obtener_posicion_planeta eph .mercurio) =
      ((PESOS "mercurio_directo").getD 0, [⟨"☿ Mercurio Directo", "positive"⟩]) := by
    rw [h]; decide
  refine ⟨h1, by decide, ?_⟩
  show _ ∈ factores_fecha eph tipo lat lon
  unfold factores_fecha
  rw [h1]
  simp

/-- Witness for the amended C1 at the concrete Mercury-less instant. -/
theorem mercurio_indisponible_aplica_directo_testigo :
    obtener_posicion_planeta ephSinMercurio .mercurio = none ∧
    (⟨"☿ Mercurio Directo", "positive"⟩ : Factor) ∈
      (calcular_puntaje_fecha ephSinMercurio "lanzamiento" 1 2).factores :=
  ⟨rfl, (mercurio_indisponible_aplica_directo ephSinMercurio "lanzamiento" 1 2 rfl).2.2⟩


/-- Every real month has at least one day. -/
lemma diasEnMes_pos (y m : ℕ) (h1 : 1 ≤ m) (hm : m ≤ 12) : 1 ≤ diasEnMes y m := by
  interval_cases m <;> simp [diasEnMes] <;> split <;> norm_num

lemma diasAntesMes_succ (y m : ℕ) (h : 1 ≤ m) :
    diasAntesMes y (m + 1) = diasAntesMes y m + diasEnMes y m := by
  obtain ⟨n, rfl⟩ : ∃ n, m = n + 1 := ⟨m - 1, by omega⟩
  rfl

lemma diasAntesMes_12 (y : ℕ) :
    diasAntesMes y 12 = if esBisiesto y then 335 else 334 := by
  split_ifs with hb <;> simp [diasAntesMes, diasEnMes, hb]

lemma diasAntesAnio_succ (y : ℕ) (hy : 1 ≤ y) :
    diasAntesAnio (y + 1) = diasAntesAnio y + (if esBisiesto y then 366 else 365) := by
  unfold diasAntesAnio
  split_ifs with hb
  · have hb' : y % 4 = 0 ∧ (¬ y % 100 = 0 ∨ y % 400 = 0) := by
      simpa [esBisiesto] using hb
    omega
  · have hb' : ¬(y % 4 = 0 ∧ (¬ y % 100 = 0 ∨ y % 400 = 0)) := by
      simpa [esBisiesto] using hb
    rw [not_and_or, not_or, not_not] at hb'
    rcases hb' with h | ⟨hq, hr⟩ <;> omega

lemma fechaValida_siguienteDia {f : Fecha} (h : FechaValida f) :
    FechaValida (siguienteDia f) := by
  obtain ⟨y, m, d⟩ := f
  obtain ⟨h1, h2, h3, h4, h5⟩ := h
  dsimp only at h1 h2 h3 h4 h5
  unfold siguienteDia
  dsimp only
  split_ifs with hd hm
  · exact ⟨h1, h2, h3, by show 1 ≤ d + 1; omega, by show d + 1 ≤ diasEnMes y m; omega⟩
  · refine ⟨h1, by show 1 ≤ m + 1; omega, by show m + 1 ≤ 12; omega,
      by show 1 ≤ 1; norm_num, ?_⟩
    show 1 ≤ diasEnMes y (m + 1)
    exact diasEnMes_pos y (m + 1) (by omega) (by omega)
  · refine ⟨by show 1 ≤ y + 1; omega, by show 1 ≤ 1; norm_num, by show 1 ≤ 12; norm_num,
      by show 1 ≤ 1; norm_num, ?_⟩
    show 1 ≤ diasEnMes (y + 1) 1
    simp [diasEnMes]

lemma toOrdinal_siguienteDia {f : Fecha} (h : FechaValida f) :
    toOrdinal (siguienteDia f) = toOrdinal f + 1 := by
  obtain ⟨y, m, d⟩ := f
  obtain ⟨h1, h2, h3, h4, h5⟩ := h
  dsimp only at h1 h2 h3 h4 h5
  unfold siguienteDia
  dsimp only
  split_ifs with hd hm
  · show diasAntesAnio y + diasAntesMes y m + (d + 1) =
      diasAntesAnio y + diasAntesMes y m + d + 1
    omega
  · show diasAntesAnio y + diasAntesMes y (m + 1) + 1 =
      diasAntesAnio y + diasAntesMes y m + d + 1
    rw [diasAntesMes_succ y m h2]
    omega
  · have hm12 : m = 12 := by omega
    subst hm12
    have h31 : diasEnMes y 12 = 31 := by simp [diasEnMes]
    have hd31 : d = 31 := by omega
    subst hd31
    show diasAntesAnio (y + 1) + diasAntesMes (y + 1) 1 + 1 =
      diasAntesAnio y + diasAntesMes y 12 + 31 + 1
    rw [diasAntesAnio_succ y h1, diasAntesMes_12 y]
    have h0 : diasAntesMes (y + 1) 1 = 0 := rfl
    rw [h0]
    split_ifs with hb <;> omega

lemma toOrdinal_avanzarDias {f : Fecha} (h : FechaValida f) (n : ℕ) :
    toOrdinal (avanzarDias f n) = toOrdinal f + n ∧ FechaValida (avanzarDias f n) := by
  induction n with
  | zero => exact ⟨rfl, h⟩
  | succ n ih =>
    refine ⟨?_, fechaValida_siguienteDia ih.2⟩
    show toOrdinal (siguienteDia (avanzarDias f n)) = _
    rw [toOrdinal_siguienteDia ih.2, ih.1]
    omega

lemma parseCamposFecha_valida {cs : List Char} {f : Fecha}
    (h : parseCamposFecha cs = some f) : FechaValida f := by
  rcases cs with _ | ⟨a1, _ | ⟨a2, _ | ⟨a3, _ | ⟨a4, _ | ⟨g1, _ | ⟨m1, _ | ⟨m2, _ |
    ⟨g2, _ | ⟨d1, _ | ⟨d2, _ | ⟨e, es⟩⟩⟩⟩⟩⟩⟩⟩⟩⟩⟩ <;>
    simp only [parseCamposFecha] at h
  all_goals try exact Option.noConfusion h
  split_ifs at h with hg hv
  injection h with h2
  subst h2
  exact hv

lemma parseFecha_valida {s : String} {f : Fecha} (h : parseFecha s = some f) :
    FechaValida f :=
  parseCamposFecha_valida h

/-- C2 counterexample: a well-formed request whose end date (2026-01-05) precedes
its start date (2026-01-10) is not rejected — the scan loop runs zero times and
`calcular_electiva` answers success with an empty date list, refuting the claimed
validation failure. -/
theorem rango_invertido_contraejemplo :
    parseFecha solInvertida.fecha_desde = some ⟨2026, 1, 10⟩ ∧
    parseFecha solInvertida.fecha_hasta = some ⟨2026, 1, 5⟩ ∧
    toOrdinal ⟨2026, 1, 5⟩ < toOrdinal ⟨2026, 1, 10⟩ ∧
    calcular_electiva (fun _ _ => none) solInvertida =
      Except.ok ⟨"exito", "cliente", "otro", "Proyecto General", [], REGLAS_APLICADAS⟩ :=
  ⟨by decide, by decide, by decide, rfl⟩

/-- C2 amended: a request whose end date is strictly before its start date is not
treated as an input validation failure — the day loop body never runs and the
operation returns a successful response whose result list is empty. -/
theorem rango_invertido_exito_vacio (ephDay : Fecha → Efemerides) (sol : Solicitud)
    (desde hasta : Fecha) (h1 : parseFecha sol.fecha_desde = some desde)
    (h2 : parseFecha sol.fecha_hasta = some hasta)
    (hlt : toOrdinal hasta < toOrdinal desde) :
    calcular_electiva ephDay sol =
      Except.ok ⟨"exito", sol.nombre, sol.tipo_proyecto,
        ((TIPOS_PROYECTO sol.tipo_proyecto).getD TIPO_OTRO).descripcion, [],
        REGLAS_APLICADAS⟩ := by
  have hef : fechaHastaEfectiva desde hasta = hasta := by
    unfold fechaHastaEfectiva
    rw [if_neg (by omega)]
  have hnil : resultadosDe ephDay sol desde hasta = [] := by
    unfold resultadosDe
    rw [hef]
    unfold listaDias
    have hz : ((toOrdinal hasta : ℤ) - toOrdinal desde + 1).toNat = 0 := by omega
    rw [hz]
    rfl
  unfold calcular_electiva
  rw [h1, h2]
  dsimp only
  rw [hnil]
  rfl

/-- Witness for the amended C2 at the concrete inverted request. -/
theorem rango_invertido_exito_vacio_testigo :
    parseFecha solInvertida.fecha_desde = some ⟨2026, 1, 10⟩ ∧
    parseFecha solInvertida.fecha_hasta = some ⟨2026, 1, 5⟩ ∧
    calcular_electiva (fun _ _ => none) solInvertida =
      Except.ok ⟨"exito", solInvertida.nombre, solInvertida.tipo_proyecto,
        ((TIPOS_PROYECTO solInvertida.tipo_proyecto).getD TIPO_OTRO).descripcion, [],
        REGLAS_APLICADAS⟩ :=
  ⟨by decide, by decide,
   rango_invertido_exito_vacio (fun _ _ => none) solInvertida ⟨2026, 1, 10⟩ ⟨2026, 1, 5⟩
     (by decide) (by decide) (by decide)⟩

/-- C7: a window longer than 60 days is truncated to end exactly at start+60
(a span of exactly 60 days) without error, and a window of at most 60 days is
scanned with its end date unmodified; in both cases the scan succeeds. -/
theorem rango_truncado_a_60_dias (ephDay : Fecha → Efemerides) (sol : Solicitud)
    (desde hasta : Fecha) (h1 : parseFecha sol.fecha_desde = some desde)
    (h2 : parseFecha sol.fecha_hasta = some hasta) :
    (60 < (toOrdinal hasta : ℤ) - toOrdinal desde →
      fechaHastaEfectiva desde hasta = avanzarDias desde 60 ∧
      (toOrdinal (fechaHastaEfectiva desde hasta) : ℤ) - toOrdinal desde = 60) ∧
    ((toOrdinal hasta : ℤ) - toOrdinal desde ≤ 60 →
      fechaHastaEfectiva desde hasta = hasta) ∧
    ∃ resp, calcular_electiva ephDay sol = Except.ok resp := by
  refine ⟨?_, ?_, ?_⟩
  · intro hgt
    have hef : fechaHastaEfectiva desde hasta = avanzarDias desde 60 := by
      unfold fechaHastaEfectiva
      rw [if_pos hgt]
    refine ⟨hef, ?_⟩
    rw [hef, (toOrdinal_avanzarDias (parseFecha_valida h1) 60).1]
    omega
  · intro hle
    unfold fechaHastaEfectiva
    rw [if_neg (by omega)]
  · refine ⟨⟨"exito", sol.nombre, sol.tipo_proyecto,
      ((TIPOS_PROYECTO sol.tipo_proyecto).getD TIPO_OTRO).descripcion,
      (ordenarPorPuntaje (resultadosDe ephDay sol desde hasta)).take 10,
      REGLAS_APLICADAS⟩, ?_⟩
    unfold calcular_electiva
    rw [h1, h2]

/-- Witness for C7: a five-month request is truncated to 60 days and succeeds. -/
theorem rango_truncado_a_60_dias_testigo :
    parseFecha solLarga.fecha_desde = some ⟨2026, 1, 1⟩ ∧
    parseFecha solLarga.fecha_hasta = some ⟨2026, 6, 1⟩ ∧
    60 < (toOrdinal (⟨2026, 6, 1⟩ : Fecha) : ℤ) - toOrdinal (⟨2026, 1, 1⟩ : Fecha) ∧
    fechaHastaEfectiva ⟨2026, 1, 1⟩ ⟨2026, 6, 1⟩ = avanzarDias ⟨2026, 1, 1⟩ 60 ∧
    (toOrdinal (fechaHastaEfectiva ⟨2026, 1, 1⟩ ⟨2026, 6, 1⟩) : ℤ) -
      toOrdinal (⟨2026, 1, 1⟩ : Fecha) = 60 :=
  ⟨by decide, by decide, by decide,
   ((rango_truncado_a_60_dias (fun _ _ => none) solLarga ⟨2026, 1, 1⟩ ⟨2026, 6, 1⟩
       (by decide) (by decide)).1 (by decide)).1,
   ((rango_truncado_a_60_dias (fun _ _ => none) solLarga ⟨2026, 1, 1⟩ ⟨2026, 6, 1⟩
       (by decide) (by decide)).1 (by decide)).2⟩

lemma mem_insertarPorPuntaje {x z : ResultadoFecha} {l : List ResultadoFecha} :
    z ∈ insertarPorPuntaje x l ↔ z = x ∨ z ∈ l := by
  induction l with
  | nil => simp [insertarPorPuntaje]
  | cons y ys ih =>
    unfold insertarPorPuntaje
    split_ifs with hc
    · simp
    · simp only [List.mem_cons, ih]
      tauto

lemma pairwise_insertarPorPuntaje {x : ResultadoFecha} {l : List ResultadoFecha}
    (h : l.Pairwise (fun a b => b.puntaje ≤ a.puntaje)) :
    (insertarPorPuntaje x l).Pairwise (fun a b => b.puntaje ≤ a.puntaje) := by
  induction l with
  | nil => simp [insertarPorPuntaje]
  | cons y ys ih =>
    rw [List.pairwise_cons] at h
    unfold insertarPorPuntaje
    split_ifs with hc
    · rw [List.pairwise_cons]
      refine ⟨?_, List.pairwise_cons.mpr h⟩
      intro z hz
      rcases List.mem_cons.mp hz with rfl | hz
      · exact hc
      · exact le_trans (h.1 z hz) hc
    · rw [List.pairwise_cons]
      refine ⟨?_, ih h.2⟩
      intro z hz
      rcases mem_insertarPorPuntaje.mp hz with rfl | hz
      · exact le_of_lt (not_le.mp hc)
      · exact h.1 z hz

lemma pairwise_ordenarPorPuntaje (l : List ResultadoFecha) :
    (ordenarPorPuntaje l).Pairwise (fun a b => b.puntaje ≤ a.puntaje) := by
  induction l with
  | nil => simp [ordenarPorPuntaje]
  | cons x xs ih => exact pairwise_insertarPorPuntaje ih

lemma perm_insertarPorPuntaje (x : ResultadoFecha) (l : List ResultadoFecha) :
    (insertarPorPuntaje x l).Perm (x :: l) := by
  induction l with
  | nil => rfl
  | cons y ys ih =>
    unfold insertarPorPuntaje
    split_ifs with hc
    · rfl
    · exact (ih.cons y).trans (List.Perm.swap x y ys)

lemma perm_ordenarPorPuntaje (l : List ResultadoFecha) :
    (ordenarPorPuntaje l).Perm l := by
  induction l with
  | nil => rfl
  | cons x xs ih =>
    exact (perm_insertarPorPuntaje x (ordenarPorPuntaje xs)).trans (ih.cons x)

lemma filter_insertarPorPuntaje (x : ResultadoFecha) (l : List ResultadoFecha) (v : ℤ) :
    (insertarPorPuntaje x l).filter (fun a => decide (a.puntaje = v)) =
      if x.puntaje = v then x :: l.filter (fun a => decide (a.puntaje = v))
      else l.filter (fun a => decide (a.puntaje = v)) := by
  induction l with
  | nil =>
    by_cases hx : x.puntaje = v <;> simp [insertarPorPuntaje, List.filter, hx]
  | cons y ys ih =>
    unfold insertarPorPuntaje
    by_cases hc : y.puntaje ≤ x.puntaje
    · rw [if_pos hc]
      by_cases hx : x.puntaje = v <;> by_cases hy : y.puntaje = v <;>
        simp [List.filter_cons, hx, hy]
    · rw [if_neg hc]
      by_cases hx : x.puntaje = v
      · have hy : ¬ y.puntaje = v := fun he => hc (le_of_eq (he.trans hx.symm))
        simp [List.filter_cons, hx, hy, ih]
      · by_cases hy : y.puntaje = v <;> simp [List.filter_cons, hx, hy, ih]

lemma filter_ordenarPorPuntaje (l : List ResultadoFecha) (v : ℤ) :
    (ordenarPorPuntaje l).filter (fun a => decide (a.puntaje = v)) =
      l.filter (fun a => decide (a.puntaje = v)) := by
  induction l with
  | nil => rfl
  | cons x xs ih =>
    show (insertarPorPuntaje x (ordenarPorPuntaje xs)).filter _ = _
    rw [filter_insertarPorPuntaje]
    by_cases hx : x.puntaje = v <;> simp [List.filter_cons, hx, ih]

/-- C6: for every valid request the scan succeeds and returns at most 10 results;
the returned list is the 10-element prefix of the stable descending sort of the
ascending-date `resultados` list, it is sorted by score descending, the sort is a
permutation, and ties keep the original ascending-date order (the sorted list
filtered to any fixed score equals the scan-order list filtered to that score). -/
theorem electiva_top10_ordenado_estable (ephDay : Fecha → Efemerides) (sol : Solicitud)
    (desde hasta : Fecha) (h1 : parseFecha sol.fecha_desde = some desde)
    (h2 : parseFecha sol.fecha_hasta = some hasta) :
    ∃ resp, calcular_electiva ephDay sol = Except.ok resp ∧
      resp.fechas = (ordenarPorPuntaje (resultadosDe ephDay sol desde hasta)).take 10 ∧
      resp.fechas.length ≤ 10 ∧
      resp.fechas.Pairwise (fun a b => b.puntaje ≤ a.puntaje) ∧
      (ordenarPorPuntaje (resultadosDe ephDay sol desde hasta)).Perm
        (resultadosDe ephDay sol desde hasta) ∧
      ∀ v : ℤ,
        (ordenarPorPuntaje (resultadosDe ephDay sol desde hasta)).filter
            (fun a => decide (a.puntaje = v)) =
          (resultadosDe ephDay sol desde hasta).filter (fun a => decide (a.puntaje = v)) := by
  refine ⟨⟨"exito", sol.nombre, sol.tipo_proyecto,
    ((TIPOS_PROYECTO sol.tipo_proyecto).getD TIPO_OTRO).descripcion,
    (ordenarPorPuntaje (resultadosDe ephDay sol desde hasta)).take 10,
    REGLAS_APLICADAS⟩, ?_, rfl, ?_, ?_, perm_ordenarPorPuntaje _,
    fun v => filter_ordenarPorPuntaje _ v⟩
  · unfold calcular_electiva
    rw [h1, h2]
  · rw [List.length_take]
    exact min_le_left _ _
  · exact List.Pairwise.sublist (List.take_sublist _ _) (pairwise_ordenarPorPuntaje _)

/-- Witness for C6 on a concrete three-day request. -/
theorem electiva_top10_ordenado_estable_testigo :
    parseFecha solCorta.fecha_desde = some ⟨2026, 1, 1⟩ ∧
    parseFecha solCorta.fecha_hasta = some ⟨2026, 1, 3⟩ ∧
    (∃ resp, calcular_electiva (fun _ _ => none) solCorta = Except.ok resp ∧
      resp.fechas =
        (ordenarPorPuntaje
          (resultadosDe (fun _ _ => none) solCorta ⟨2026, 1, 1⟩ ⟨2026, 1, 3⟩)).take 10 ∧
      resp.fechas.length ≤ 10 ∧
      resp.fechas.Pairwise (fun a b => b.puntaje ≤ a.puntaje) ∧
      (ordenarPorPuntaje
        (resultadosDe (fun _ _ => none) solCorta ⟨2026, 1, 1⟩ ⟨2026, 1, 3⟩)).Perm
        (resultadosDe (fun _ _ => none) solCorta ⟨2026, 1, 1⟩ ⟨2026, 1, 3⟩) ∧
      ∀ v : ℤ,
        (ordenarPorPuntaje
            (resultadosDe (fun _ _ => none) solCorta ⟨2026, 1, 1⟩ ⟨2026, 1, 3⟩)).filter
            (fun a => decide (a.puntaje = v)) =
          (resultadosDe (fun _ _ => none) solCorta ⟨2026, 1, 1⟩ ⟨2026, 1, 3⟩).filter
            (fun a => decide (a.puntaje = v))) :=
  ⟨by decide, by decide,
   electiva_top10_ordenado_estable (fun _ _ => none) solCorta ⟨2026, 1, 1⟩ ⟨2026, 1, 3⟩
     (by decide) (by decide)⟩

lemma tieneAspectoAplicativo_iff (eph : Efemerides) (luna : Posicion) :
    tieneAspectoAplicativo eph luna = true ↔
      ∃ p ∈ PLANETAS_VOC, ∃ pos : Posicion,
        obtener_posicion_planeta eph p = some pos ∧
        ∃ ang ∈ ANGULOS_MAYORES,
          |arcoCorto luna.longitud pos.longitud - ang| < 3 ∧ 0 < luna.velocidad := by
  unfold tieneAspectoAplicativo
  rw [List.any_eq_true]
  constructor
  · rintro ⟨p, hp, hmatch⟩
    cases hpos : obtener_posicion_planeta eph p with
    | none => rw [hpos] at hmatch; simp at hmatch
    | some pos =>
      rw [hpos] at hmatch
      simp only [List.any_eq_true, Bool.and_eq_true, decide_eq_true_eq] at hmatch
      obtain ⟨ang, hang, h3, hv⟩ := hmatch
      exact ⟨p, hp, pos, hpos, ang, hang, h3, hv⟩
  · rintro ⟨p, hp, pos, hpos, ang, hang, h3, hv⟩
    refine ⟨p, hp, ?_⟩
    rw [hpos]
    simp only [List.any_eq_true, Bool.and_eq_true, decide_eq_true_eq]
    exact ⟨ang, hang, h3, hv⟩

/-- C4: the void-of-course detector returns false whenever the Moon's in-sign
degree is at most 27; and when the degree exceeds 27 and no body of the six-planet
scan list is available within a 3° orb of one of the five major angles (with the
Moon's speed positive), it returns true. -/
theorem vacia_de_curso_caracterizacion (eph : Efemerides) (luna : Posicion)
    (h : obtener_posicion_planeta eph .luna = some luna) :
    (luna.grado ≤ 27 → esta_luna_vacia_de_curso eph = false) ∧
    (27 < luna.grado →
      (¬ ∃ p ∈ PLANETAS_VOC, ∃ pos : Posicion,
          obtener_posicion_planeta eph p = some pos ∧
          ∃ ang ∈ ANGULOS_MAYORES,
            |arcoCorto luna.longitud pos.longitud - ang| < 3 ∧ 0 < luna.velocidad) →
      esta_luna_vacia_de_curso eph = true) := by
  constructor
  · intro h27
    simp only [esta_luna_vacia_de_curso, h]
    rw [if_neg (not_lt.mpr h27)]
  · intro h27 hno
    simp only [esta_luna_vacia_de_curso, h]
    rw [if_pos h27]
    cases htiene : tieneAspectoAplicativo eph luna
    · simp
    · exact absurd ((tieneAspectoAplicativo_iff eph luna).mp htiene) hno

/-- Witness for C4: with the Moon alone available at 28° Aries (28 > 27) and no
other body resolvable, the Moon is void of course. -/
theorem vacia_de_curso_caracterizacion_testigo :
    obtener_posicion_planeta ephLunaFinal .luna = some ⟨28, "Aries", 0, 28, 13, false⟩ ∧
    (27 : ℚ) < (⟨28, "Aries", 0, 28, 13, false⟩ : Posicion).grado ∧
    esta_luna_vacia_de_curso ephLunaFinal = true := by
  have h : obtener_posicion_planeta ephLunaFinal .luna =
      some ⟨28, "Aries", 0, 28, 13, false⟩ := by
    with_unfolding_all decide
  refine ⟨h, by norm_num, ?_⟩
  apply (vacia_de_curso_caracterizacion ephLunaFinal _ h).2 (by norm_num)
  rintro ⟨p, hp, pos, hpos, -⟩
  simp only [PLANETAS_VOC] at hp
  fin_cases hp <;> simp [obtener_posicion_planeta, ephLunaFinal] at hpos

lemma banda_unica {d : ℚ} {i j : ℕ} (hi1 : 45 * (i:ℚ) ≤ d) (hi2 : d < 45 * ((i:ℚ) + 1))
    (hj1 : 45 * (j:ℚ) ≤ d) (hj2 : d < 45 * ((j:ℚ) + 1)) : j = i := by
  have h1 : (j:ℚ) < (i:ℚ) + 1 := by linarith
  have h2 : (i:ℚ) < (j:ℚ) + 1 := by linarith
  have h1' : j < i + 1 := by exact_mod_cast h1
  have h2' : i < j + 1 := by exact_mod_cast h2
  omega

lemma clasificar_en_banda (d : ℚ) (i : ℕ) (hi : i < 8) (hlo : 45 * (i:ℚ) ≤ d)
    (hhi : d < 45 * ((i:ℚ) + 1)) :
    clasificarFase d = (FASES_ORDEN.getD i "", decide (i < 4)) := by
  interval_cases i <;>
    (norm_num at hlo hhi
     unfold clasificarFase
     split_ifs <;> first | (exfalso; linarith) | simp [FASES_ORDEN])

/-- C5: the phase chain is total on [0,360): every separation falls in exactly
one of the eight 45°-wide bands, the band index selects the phase name in the
fixed cyclic order, the first four bands are waxing and the last four waning;
separation 0 maps to Nueva/waxing and separation 359.9 to Menguante/not-waxing. -/
theorem fase_lunar_bandas (d : ℚ) (h0 : 0 ≤ d) (h1 : d < 360) :
    (∃ i : ℕ, i < 8 ∧ 45 * (i:ℚ) ≤ d ∧ d < 45 * ((i:ℚ) + 1) ∧
      clasificarFase d = (FASES_ORDEN.getD i "", decide (i < 4)) ∧
      ∀ j : ℕ, 45 * (j:ℚ) ≤ d → d < 45 * ((j:ℚ) + 1) → j = i) ∧
    clasificarFase 0 = ("Nueva", true) ∧
    clasificarFase (3599/10) = ("Menguante", false) := by
  refine ⟨?_, by with_unfolding_all decide, by with_unfolding_all decide⟩
  have hex : ∃ i : ℕ, i < 8 ∧ 45 * (i:ℚ) ≤ d ∧ d < 45 * ((i:ℚ) + 1) := by
    by_cases c1 : d < 45
    · exact ⟨0, by norm_num, by push_cast; linarith, by push_cast; linarith⟩
    by_cases c2 : d < 90
    · exact ⟨1, by norm_num, by push_cast; linarith [not_lt.mp c1],
        by push_cast; linarith⟩
    by_cases c3 : d < 135
    · exact ⟨2, by norm_num, by push_cast; linarith [not_lt.mp c2],
        by push_cast; linarith⟩
    by_cases c4 : d < 180
    · exact ⟨3, by norm_num, by push_cast; linarith [not_lt.mp c3],
        by push_cast; linarith⟩
    by_cases c5 : d < 225
    · exact ⟨4, by norm_num, by push_cast; linarith [not_lt.mp c4],
        by push_cast; linarith⟩
    by_cases c6 : d < 270
    · exact ⟨5, by norm_num, by push_cast; linarith [not_lt.mp c5],
        by push_cast; linarith⟩
    by_cases c7 : d < 315
    · exact ⟨6, by norm_num, by push_cast; linarith [not_lt.mp c6],
        by push_cast; linarith⟩
    · exact ⟨7, by norm_num, by push_cast; linarith [not_lt.mp c7],
        by push_cast; linarith⟩
  obtain ⟨i, hi, hlo, hhi⟩ := hex
  exact ⟨i, hi, hlo, hhi, clasificar_en_banda d i hi hlo hhi,
    fun j hj1 hj2 => banda_unica hlo hhi hj1 hj2⟩

/-- Witness for C5 at the concrete separation 100°. -/
theorem fase_lunar_bandas_testigo :
    (0:ℚ) ≤ 100 ∧ (100:ℚ) < 360 ∧
    ((∃ i : ℕ, i < 8 ∧ 45 * (i:ℚ) ≤ 100 ∧ (100:ℚ) < 45 * ((i:ℚ) + 1) ∧
        clasificarFase 100 = (FASES_ORDEN.getD i "", decide (i < 4)) ∧
        ∀ j : ℕ, 45 * (j:ℚ) ≤ 100 → (100:ℚ) < 45 * ((j:ℚ) + 1) → j = i) ∧
      clasificarFase 0 = ("Nueva", true) ∧
      clasificarFase (3599/10) = ("Menguante", false)) :=
  ⟨by norm_num, by norm_num, fase_lunar_bandas 100 (by norm_num) (by norm_num)⟩

/-- C9: at an instant where the Moon is waxing, not void of course and inside the
Via Combusta, Mercury is available and retrograde, no Moon aspect to Jupiter,
Venus, Mars or Saturn is within orb, the Moon's sign is not favorable and there
is no Sun-Moon trine or sextile, the score is 50 + 15 - 20 - 20 = 25 with level
"avoid", and the scanner attaches an empty best-hours list to such a day. -/
theorem escenario_retro_via_combusta (eph : Efemerides) (luna merc : Posicion)
    (hluna : obtener_posicion_planeta eph .luna = some luna)
    (hfase : (obtener_fase_lunar eph).creciente = true)
    (hvoc : esta_luna_vacia_de_curso eph = false)
    (hvia : esta_en_via_combusta luna.longitud = true)
    (hmerc : obtener_posicion_planeta eph .mercurio = some merc)
    (hretro : merc.retrogrado = true)
    (hjup : calcular_aspecto eph .luna .jupiter = none)
    (hven : calcular_aspecto eph .luna .venus = none)
    (hmar : calcular_aspecto eph .luna .marte = none)
    (hsat : calcular_aspecto eph .luna .saturno = none)
    (hsigno : luna.signo ∉ SIGNOS_FAVORABLES)
    (hsolluna : ∀ a : Aspecto, calcular_aspecto eph .sol .luna = some a →
      a.aspecto ∉ ["Trígono", "Sextil"]) :
    (∀ (tipo : String) (lat lon : ℚ),
      (calcular_puntaje_fecha eph tipo lat lon).puntaje = 25 ∧
      (calcular_puntaje_fecha eph tipo lat lon).nivel = "avoid") ∧
    (∀ (ephDay : Fecha → Efemerides) (sol : Solicitud) (f : Fecha), ephDay f = eph →
      (construirResultado ephDay sol f).mejores_horas = []) := by
  have h10 : (reglaSolLuna (calcular_aspecto eph .sol .luna)).1 = 0 := by
    cases hsl : calcular_aspecto eph .sol .luna with
    | none => rfl
    | some a =>
      have hna := hsolluna a hsl
      simp [reglaSolLuna, hna]
  have hbruto : ∀ (tipo : String) (lat lon : ℚ), puntaje_bruto eph tipo lat lon = 25 := by
    intro tipo lat lon
    unfold puntaje_bruto
    rw [hluna, hmerc, hjup, hven, hmar, hsat, hvoc, h10]
    simp only [reglaFase, hfase, if_true, reglaVaciaDeCurso, Bool.false_eq_true, if_false,
      reglaViaCombusta, hvia, reglaMercurio, Option.elim, hretro, reglaJupiter, reglaVenus,
      reglaMarte, reglaSaturno, reglaSignoLunar, hsigno, PESOS]
    decide
  have hpn : ∀ (tipo : String) (lat lon : ℚ),
      (calcular_puntaje_fecha eph tipo lat lon).puntaje = 25 ∧
      (calcular_puntaje_fecha eph tipo lat lon).nivel = "avoid" := by
    intro tipo lat lon
    have hp : (calcular_puntaje_fecha eph tipo lat lon).puntaje = 25 := by
      show max 0 (min 100 (puntaje_bruto eph tipo lat lon)) = 25
      rw [hbruto]
      decide
    refine ⟨hp, ?_⟩
    show nivelDe (max 0 (min 100 (puntaje_bruto eph tipo lat lon))) = "avoid"
    rw [hbruto]
    decide
  refine ⟨hpn, ?_⟩
  intro ephDay sol f hf
  unfold construirResultado
  rw [hf]
  have := (hpn sol.tipo_proyecto sol.latitud sol.longitud).2
  simp [this]

/-- Witness for C9 at the concrete scenario instant `ephEscenario`. -/
theorem escenario_retro_via_combusta_testigo :
    (obtener_fase_lunar ephEscenario).creciente = true ∧
    esta_luna_vacia_de_curso ephEscenario = false ∧
    esta_en_via_combusta (200:ℚ) = true ∧
    (calcular_puntaje_fecha ephEscenario "negocio" (-12) (-77)).puntaje = 25 ∧
    (calcular_puntaje_fecha ephEscenario "negocio" (-12) (-77)).nivel = "avoid" ∧
    (construirResultado (fun _ => ephEscenario)
      ⟨"cliente", "negocio", "2026-01-01", "2026-01-10", -12, -77⟩
      ⟨2026, 1, 1⟩).mejores_horas = [] := by
  have hluna : obtener_posicion_planeta ephEscenario .luna =
      some ⟨200, "Libra", 6, 20, 13, false⟩ := by with_unfolding_all decide
  have hmerc : obtener_posicion_planeta ephEscenario .mercurio =
      some ⟨10, "Aries", 0, 10, -1, true⟩ := by with_unfolding_all decide
  have hfase : (obtener_fase_lunar ephEscenario).creciente = true := by
    with_unfolding_all decide
  have hvoc : esta_luna_vacia_de_curso ephEscenario = false := by
    with_unfolding_all decide
  have hvia : esta_en_via_combusta (200:ℚ) = true := by with_unfolding_all decide
  have hjup : calcular_aspecto ephEscenario .luna .jupiter = none := by
    with_unfolding_all decide
  have hven : calcular_aspecto ephEscenario .luna .venus = none := by
    with_unfolding_all decide
  have hmar : calcular_aspecto ephEscenario .luna .marte = none := by
    with_unfolding_all decide
  have hsat : calcular_aspecto ephEscenario .luna .saturno = none := by
    with_unfolding_all decide
  have hsl : calcular_aspecto ephEscenario .sol .luna = none := by
    with_unfolding_all decide
  have T := escenario_retro_via_combusta ephEscenario
    ⟨200, "Libra", 6, 20, 13, false⟩ ⟨10, "Aries", 0, 10, -1, true⟩
    hluna hfase hvoc hvia hmerc rfl hjup hven hmar hsat
    (by decide)
    (fun a ha => absurd (hsl ▸ ha) (by simp))
  exact ⟨hfase, hvoc, hvia, (T.1 "negocio" (-12) (-77)).1, (T.1 "negocio" (-12) (-77)).2,
    T.2 (fun _ => ephEscenario) ⟨"cliente", "negocio", "2026-01-01", "2026-01-10", -12, -77⟩
      ⟨2026, 1, 1⟩ rfl⟩
